import Mathlib

/-!
Shallow embedding of `src/lib/enops/support/aws_cli_get_credentials.py`.

The script obtains a botocore session, resolves credentials through the
provider chain (`session.get_credentials()`), freezes them
(`credentials.get_frozen_credentials()`), and prints a
`credential_process`-style JSON object.  Four exception types raised
inside the `try` block are mapped to `sys.exit(e)`; a `None` result maps
to `sys.exit('Unable to locate AWS credentials.')`; any other exception
propagates uncaught.  The two external calls are modelled as an
environment supplying their outcomes, and the script body as a total
function of that environment.
-/

set_option autoImplicit false

/-- A frozen credential snapshot, botocore's `ReadOnlyCredentials` named
tuple: `access_key`, `secret_key` and `token`.  `token` is `None` for a
static credential, which `json.dumps` renders as JSON `null`. -/
structure FrozenCredentials where
  access_key : String
  secret_key : String
  token : Option String
  deriving DecidableEq, Repr

/-- A Python `datetime` value as used for `_expiry_time`: calendar fields
plus an optional UTC offset in whole minutes (`none` models a naive
datetime, `some 0` models `tzutc()` / `timezone.utc`). -/
structure Datetime where
  year : Nat
  month : Nat
  day : Nat
  hour : Nat
  minute : Nat
  second : Nat
  microsecond : Nat
  utcoffset_minutes : Option Int
  deriving DecidableEq, Repr

/-- Zero-pad a natural number to two digits, as Python's `%02d`. -/
def pad2 (n : Nat) : String :=
  if n < 10 then "0" ++ toString n else toString n

/-- Zero-pad a natural number to four digits, as Python's `%04d`. -/
def pad4 (n : Nat) : String :=
  if n < 10 then "000" ++ toString n
  else if n < 100 then "00" ++ toString n
  else if n < 1000 then "0" ++ toString n
  else toString n

/-- Zero-pad a natural number to six digits, as Python's `%06d`. -/
def pad6 (n : Nat) : String :=
  if n < 10 then "00000" ++ toString n
  else if n < 100 then "0000" ++ toString n
  else if n < 1000 then "000" ++ toString n
  else if n < 10000 then "00" ++ toString n
  else if n < 100000 then "0" ++ toString n
  else toString n

/-- The UTC-offset suffix CPython's `datetime.isoformat` appends for an
aware datetime with a whole-minutes offset: `±HH:MM`.  It is never the
literal `Z`. -/
def offsetSuffix (m : Int) : String :=
  let sign := if m < 0 then "-" else "+"
  let a := m.natAbs
  sign ++ pad2 (a / 60) ++ ":" ++ pad2 (a % 60)

/-- CPython's `datetime.isoformat()` with the default separator and
`timespec='auto'`: `YYYY-MM-DDTHH:MM:SS`, then `.ffffff` only when the
microsecond field is nonzero, then the UTC offset suffix only when the
datetime is aware. -/
def Datetime.isoformat (d : Datetime) : String :=
  pad4 d.year ++ "-" ++ pad2 d.month ++ "-" ++ pad2 d.day ++ "T" ++
  pad2 d.hour ++ ":" ++ pad2 d.minute ++ ":" ++ pad2 d.second ++
  (if d.microsecond = 0 then "" else "." ++ pad6 d.microsecond) ++
  (match d.utcoffset_minutes with
   | none => ""
   | some m => offsetSuffix m)

/-- The credentials object returned by `session.get_credentials()` when it
is not `None`: either a plain (non-expiring) `botocore.credentials.Credentials`
or a `botocore.credentials.RefreshableCredentials`, which additionally
carries `_expiry_time`. -/
inductive Credentials where
  | plain (frozen : FrozenCredentials)
  | refreshable (frozen : FrozenCredentials) (expiry_time : Datetime)
  deriving DecidableEq, Repr

/-- `isinstance(credentials, botocore.credentials.RefreshableCredentials)`. -/
def Credentials.isRefreshable : Credentials → Bool
  | .plain _ => false
  | .refreshable _ _ => true

/-- A JSON value as produced by the script: the integer `1`, strings, or
`null` (for a `None` session token). -/
inductive JsonValue where
  | num (n : Nat)
  | str (s : String)
  | null
  deriving DecidableEq, Repr

/-- The JSON encoding of the Python `token` attribute: a string, or
`null` when the attribute is `None`. -/
def sessionTokenValue (t : Option String) : JsonValue :=
  match t with
  | some s => JsonValue.str s
  | none => JsonValue.null

/-- The `data` dict the script builds (insertion order preserved, as in
Python): the four fixed keys, then `Expiration` appended only when
`isinstance(credentials, RefreshableCredentials)`, with value
`credentials._expiry_time.isoformat()`. -/
def output_data (credentials : Credentials)
    (frozen_credentials : FrozenCredentials) : List (String × JsonValue) :=
  let data : List (String × JsonValue) :=
    [("Version", JsonValue.num 1),
     ("AccessKeyId", JsonValue.str frozen_credentials.access_key),
     ("SecretAccessKey", JsonValue.str frozen_credentials.secret_key),
     ("SessionToken", sessionTokenValue frozen_credentials.token)]
  match credentials with
  | .refreshable _ expiry_time =>
      data ++ [("Expiration", JsonValue.str expiry_time.isoformat)]
  | .plain _ => data

/-- First value stored under a key, i.e. Python dict lookup (keys in
`output_data` are distinct). -/
def lookupKey (k : String) : List (String × JsonValue) → Option JsonValue
  | [] => none
  | (k2, v) :: rest => if k2 = k then some v else lookupKey k rest

/-- One hexadecimal digit, lowercase, as produced by `json.dumps`. -/
def hexDigit (n : Nat) : Char :=
  if n < 10 then Char.ofNat (48 + n) else Char.ofNat (87 + n)

/-- Four lowercase hexadecimal digits. -/
def hex4 (n : Nat) : String :=
  String.mk [hexDigit (n / 4096 % 16), hexDigit (n / 256 % 16),
             hexDigit (n / 16 % 16), hexDigit (n % 16)]

/-- `\uXXXX` escape of a code point, using a surrogate pair above the
basic multilingual plane, as `json.dumps` with `ensure_ascii=True`. -/
def uescape (n : Nat) : String :=
  if n ≤ 0xFFFF then "\\u" ++ hex4 n
  else
    let m := n - 0x10000
    "\\u" ++ hex4 (0xD800 + m / 0x400) ++ "\\u" ++ hex4 (0xDC00 + m % 0x400)

/-- Escape of one character inside a JSON string, following
`json.dumps`'s default `ensure_ascii=True` encoder. -/
def escapeChar (c : Char) : String :=
  if c = '"' then "\\\""
  else if c = '\\' then "\\\\"
  else if c = '\n' then "\\n"
  else if c = '\r' then "\\r"
  else if c = '\t' then "\\t"
  else if c.toNat = 8 then "\\b"
  else if c.toNat = 12 then "\\f"
  else if c.toNat < 32 ∨ c.toNat > 126 then uescape c.toNat
  else String.singleton c

/-- A JSON string literal with escapes, as `json.dumps` writes it. -/
def jsonStringLit (s : String) : String :=
  "\"" ++ String.join (s.data.map escapeChar) ++ "\""

/-- Serialization of one JSON value. -/
def JsonValue.render : JsonValue → String
  | .num n => toString n
  | .str s => jsonStringLit s
  | .null => "null"

/-- `json.dumps(data, indent=2)` on a dict with string keys, preserving
insertion order. -/
def json_dumps_indent2 (d : List (String × JsonValue)) : String :=
  match d with
  | [] => "\x7b\x7d"
  | _ =>
    "\x7b\n  " ++
    String.intercalate ",\n  "
      (d.map (fun kv => jsonStringLit kv.1 ++ ": " ++ kv.2.render)) ++
    "\n\x7d"

/-- A Python exception as seen by the script's `except` clauses: one
constructor per caught type, and `otherExc` for every exception of any
other type (carrying that type's name).  `msg` is `str(e)`. -/
inductive PyExc where
  | keyboardInterrupt (msg : String)
  | paramValidationError (msg : String)
  | profileNotFound (msg : String)
  | clientError (msg : String)
  | otherExc (name : String) (msg : String)
  deriving DecidableEq, Repr

/-- `str(e)`, which `sys.exit(e)` prints to stderr. -/
def PyExc.msg : PyExc → String
  | .keyboardInterrupt m => m
  | .paramValidationError m => m
  | .profileNotFound m => m
  | .clientError m => m
  | .otherExc _ m => m

/-- The exception type name, shown in an uncaught traceback. -/
def PyExc.excName : PyExc → String
  | .keyboardInterrupt _ => "KeyboardInterrupt"
  | .paramValidationError _ => "botocore.exceptions.ParamValidationError"
  | .profileNotFound _ => "botocore.exceptions.ProfileNotFound"
  | .clientError _ => "botocore.exceptions.ClientError"
  | .otherExc n _ => n

/-- Whether one of the script's four `except` clauses
(`KeyboardInterrupt`, `ParamValidationError`, `ProfileNotFound`,
`ClientError`) catches the exception. -/
def PyExc.handled : PyExc → Bool
  | .otherExc _ _ => false
  | _ => true

/-- Whether the exception is one of the spec's `ConfigurationError`
kinds (`ParamValidationError`, `ProfileNotFound`) or its
`ExternalCallError` kind (`ClientError`). -/
def PyExc.is_config_or_client : PyExc → Bool
  | .paramValidationError _ => true
  | .profileNotFound _ => true
  | .clientError _ => true
  | _ => false

/-- Outcomes of the script's two external calls: what
`session.get_credentials()` returns (possibly `None`, possibly raising)
and what `credentials.get_frozen_credentials()` returns (possibly
raising, e.g. when a deferred refresh performs the external call). -/
structure Env where
  get_credentials : Except PyExc (Option Credentials)
  get_frozen_credentials : Credentials → Except PyExc FrozenCredentials

/-- How the process run ends: `success` carries the dict printed as JSON
(exit status 0); `exited` is `sys.exit(message)` (message on stderr,
exit status 1); `uncaught` is an exception escaping the `try` block
(traceback on stderr, exit status 1). -/
inductive ProcResult where
  | success (data : List (String × JsonValue))
  | exited (msg : String)
  | uncaught (e : PyExc)
  deriving DecidableEq, Repr

/-- The script body: the `try` block calling the two external operations,
the four `except` clauses each doing `sys.exit(e)`, the `None` check
doing `sys.exit('Unable to locate AWS credentials.')`, and on success the
dict built by `output_data`. -/
def run_script (env : Env) : ProcResult :=
  match env.get_credentials with
  | .error e => if e.handled then .exited e.msg else .uncaught e
  | .ok none => .exited "Unable to locate AWS credentials."
  | .ok (some credentials) =>
    match env.get_frozen_credentials credentials with
    | .error e => if e.handled then .exited e.msg else .uncaught e
    | .ok frozen_credentials => .success (output_data credentials frozen_credentials)

/-- The external calls the script performs, in order. -/
inductive CallEvent where
  | callGetCredentials
  | callGetFrozenCredentials
  deriving DecidableEq, Repr

/-- `run_script` instrumented with the sequence of external calls made:
`get_credentials` once, then `get_frozen_credentials` only if the first
call returned an object. -/
def run_script_trace (env : Env) : ProcResult × List CallEvent :=
  match env.get_credentials with
  | .error e =>
      ((if e.handled then .exited e.msg else .uncaught e), [.callGetCredentials])
  | .ok none =>
      (.exited "Unable to locate AWS credentials.", [.callGetCredentials])
  | .ok (some credentials) =>
    match env.get_frozen_credentials credentials with
    | .error e =>
        ((if e.handled then .exited e.msg else .uncaught e),
         [.callGetCredentials, .callGetFrozenCredentials])
    | .ok frozen_credentials =>
        (.success (output_data credentials frozen_credentials),
         [.callGetCredentials, .callGetFrozenCredentials])

/-- Process exit status: `sys.exit(str)` and an uncaught exception both
end the interpreter with status 1. -/
def exit_code : ProcResult → Nat
  | .success _ => 0
  | .exited _ => 1
  | .uncaught _ => 1

/-- What the run writes to standard output: only the success path prints
(`print(json.dumps(data, indent=2))`, which appends a newline). -/
def stdout_of : ProcResult → String
  | .success d => json_dumps_indent2 d ++ "\n"
  | .exited _ => ""
  | .uncaught _ => ""

/-- What the run writes to standard error: `sys.exit(msg)` prints the
message and a newline; an uncaught exception prints a traceback. -/
def stderr_of : ProcResult → String
  | .success _ => ""
  | .exited m => m ++ "\n"
  | .uncaught e =>
      "Traceback (most recent call last):\n" ++ e.excName ++ ": " ++ e.msg ++ "\n"

/-- Whether resolution succeeds end to end: `get_credentials` returns an
object and freezing it returns normally. -/
def resolution_ok (env : Env) : Bool :=
  match env.get_credentials with
  | .ok (some credentials) =>
    match env.get_frozen_credentials credentials with
    | .ok _ => true
    | .error _ => false
  | _ => false

example :
    output_data (Credentials.plain ⟨"AKIA", "xyz", none⟩) ⟨"AKIA", "xyz", none⟩ =
      [("Version", JsonValue.num 1), ("AccessKeyId", JsonValue.str "AKIA"),
       ("SecretAccessKey", JsonValue.str "xyz"),
       ("SessionToken", JsonValue.null)] := by
  decide

example :
    (Datetime.mk 2024 1 1 0 0 0 0 (some 0)).isoformat =
      "2024-01-01T00:00:00+00:00" := by
  decide

/-- Modelled from the spec: the Refreshable Credential Wrapper state
(botocore's `RefreshableCredentials` internals, not under `src/`): the
currently wrapped frozen credentials and the stored expiration
timestamp, modelled as seconds since the epoch. -/
structure RefreshableWrapper where
  frozen : FrozenCredentials
  expiry : Nat
  deriving DecidableEq, Repr

/-- Modelled from the spec: `freeze()` of the Refreshable Credential
Wrapper (botocore's `RefreshableCredentials.get_frozen_credentials`, not
under `src/`).  Per the spec, if current time ≥ stored expiration it
triggers the owning source's `resolve()` again before returning, which
atomically replaces the wrapped credentials and expiration; otherwise it
returns the currently wrapped credentials unchanged. -/
def freeze (resolve : Unit → FrozenCredentials × Nat) (now : Nat)
    (w : RefreshableWrapper) : FrozenCredentials × RefreshableWrapper :=
  if w.expiry ≤ now then
    let r := resolve ()
    (r.1, RefreshableWrapper.mk r.1 r.2)
  else (w.frozen, w)

/-- An exception caught by one of the script's three non-interrupt
`except` clauses is in particular caught. -/
theorem PyExc.handled_of_config_or_client (e : PyExc)
    (h : e.is_config_or_client = true) : e.handled = true := by
  cases e <;> simp_all [PyExc.is_config_or_client, PyExc.handled]

/-- No external call appears twice in the trace of one run: each of the
two operations is invoked at most once. -/
theorem trace_count_le_one (env : Env) (ev : CallEvent) :
    List.count ev (run_script_trace env).2 ≤ 1 := by
  cases h1 : env.get_credentials with
  | error e => simp only [run_script_trace, h1]; cases ev <;> decide
  | ok v =>
    cases v with
    | none => simp only [run_script_trace, h1]; cases ev <;> decide
    | some c =>
      cases h2 : env.get_frozen_credentials c with
      | error e => simp only [run_script_trace, h1, h2]; cases ev <;> decide
      | ok f => simp only [run_script_trace, h1, h2]; cases ev <;> decide

/-- Appending a newline leaves a nonempty string. -/
theorem append_newline_ne_empty (s : String) : s ++ "\n" ≠ "" := by
  intro h
  have h2 := congrArg String.length h
  simp [String.length_append] at h2
  exact absurd h2.2 (by decide)

/-- C1: the emitted JSON object contains the key `Expiration` exactly when
the resolved credential is a `RefreshableCredentials`; when present its
value is the isoformat of the credential's `_expiry_time`, and for a
never-expiring credential the key is absent entirely. -/
theorem C1_expiration_iff_time_limited (c : Credentials) (f : FrozenCredentials) :
    (lookupKey "Expiration" (output_data c f)).isSome = c.isRefreshable ∧
    lookupKey "Expiration" (output_data c f) =
      (match c with
       | Credentials.refreshable _ expiry_time =>
           some (JsonValue.str expiry_time.isoformat)
       | Credentials.plain _ => none) := by
  cases c <;> exact ⟨rfl, rfl⟩

/-- C2: the emitted JSON object always carries `Version` with constant
value `1`, `AccessKeyId` equal to the frozen credential's access key,
`SecretAccessKey` equal to its secret key, and `SessionToken` equal to its
session token, encoded as JSON `null` when the credential has no session
token. -/
theorem C2_fixed_keys (c : Credentials) (f : FrozenCredentials) :
    lookupKey "Version" (output_data c f) = some (JsonValue.num 1) ∧
    lookupKey "AccessKeyId" (output_data c f) = some (JsonValue.str f.access_key) ∧
    lookupKey "SecretAccessKey" (output_data c f) = some (JsonValue.str f.secret_key) ∧
    lookupKey "SessionToken" (output_data c f) = some (sessionTokenValue f.token) ∧
    sessionTokenValue none = JsonValue.null := by
  cases c <;> exact ⟨rfl, rfl, rfl, rfl, rfl⟩

/-- C3: when the provider chain yields no credentials
(`session.get_credentials()` returns `None`), the process exits non-zero
with the generic locate-failure message and writes nothing to standard
output. -/
theorem C3_no_credentials (env : Env)
    (h : env.get_credentials = Except.ok none) :
    run_script env = ProcResult.exited "Unable to locate AWS credentials." ∧
    exit_code (run_script env) ≠ 0 ∧
    stdout_of (run_script env) = "" := by
  simp [run_script, h, exit_code, stdout_of]

/-- Environment in which the chain finds no credentials. -/
def env_none : Env :=
  Env.mk (Except.ok none) (fun _ => Except.ok (FrozenCredentials.mk "" "" none))

/-- C3 witness: the no-credentials environment, concretely. -/
theorem C3_no_credentials_witness :
    run_script env_none = ProcResult.exited "Unable to locate AWS credentials." ∧
    exit_code (run_script env_none) ≠ 0 ∧
    stdout_of (run_script env_none) = "" :=
  C3_no_credentials env_none rfl

/-- C4: a `ParamValidationError`, `ProfileNotFound` or `ClientError`
raised during resolution or freezing is surfaced as the exit message, the
process exits non-zero without printing JSON, and no external call is
made more than once (no fallback, no retry). -/
theorem C4_hard_failure_aborts (env : Env) (e : PyExc)
    (hk : e.is_config_or_client = true)
    (hr : env.get_credentials = Except.error e ∨
      ∃ c, env.get_credentials = Except.ok (some c) ∧
        env.get_frozen_credentials c = Except.error e) :
    run_script env = ProcResult.exited e.msg ∧
    exit_code (run_script env) ≠ 0 ∧
    stdout_of (run_script env) = "" ∧
    ∀ ev : CallEvent, List.count ev (run_script_trace env).2 ≤ 1 := by
  have hh := PyExc.handled_of_config_or_client e hk
  rcases hr with h | ⟨c, h1, h2⟩
  · simp [run_script, h, hh, exit_code, stdout_of]
    exact trace_count_le_one env
  · simp [run_script, h1, h2, hh, exit_code, stdout_of]
    exact trace_count_le_one env

/-- Environment in which resolution raises a parameter-validation error. -/
def env_param_error : Env :=
  Env.mk (Except.error (PyExc.paramValidationError "Parameter validation failed"))
    (fun _ => Except.ok (FrozenCredentials.mk "" "" none))

/-- C4 witness: a concrete parameter-validation failure. -/
theorem C4_hard_failure_aborts_witness :
    run_script env_param_error = ProcResult.exited "Parameter validation failed" ∧
    exit_code (run_script env_param_error) ≠ 0 ∧
    stdout_of (run_script env_param_error) = "" ∧
    ∀ ev : CallEvent, List.count ev (run_script_trace env_param_error).2 ≤ 1 :=
  C4_hard_failure_aborts env_param_error
    (PyExc.paramValidationError "Parameter validation failed") rfl (Or.inl rfl)

/-- C5: the process exits with status 0 exactly when resolution succeeds,
which is also exactly when the formatted JSON is printed to standard
output; every failing run exits non-zero with an empty standard output
and a nonempty message on standard error. -/
theorem C5_exit_behaviour (env : Env) :
    (exit_code (run_script env) = 0 ↔ resolution_ok env = true) ∧
    (exit_code (run_script env) = 0 ↔ stdout_of (run_script env) ≠ "") ∧
    (exit_code (run_script env) ≠ 0 →
      stdout_of (run_script env) = "" ∧ stderr_of (run_script env) ≠ "") := by
  cases h1 : env.get_credentials with
  | error e =>
    cases e <;>
      simp [run_script, h1, exit_code, stdout_of, stderr_of, resolution_ok,
        PyExc.handled, PyExc.msg, PyExc.excName, append_newline_ne_empty]
  | ok v =>
    cases v with
    | none =>
      simp [run_script, h1, exit_code, stdout_of, stderr_of, resolution_ok,
        append_newline_ne_empty]
    | some c =>
      cases h2 : env.get_frozen_credentials c with
      | error e =>
        cases e <;>
          simp [run_script, h1, h2, exit_code, stdout_of, stderr_of,
            resolution_ok, PyExc.handled, PyExc.msg, PyExc.excName,
            append_newline_ne_empty]
      | ok f =>
        simp [run_script, h1, h2, exit_code, stdout_of, stderr_of,
          resolution_ok, append_newline_ne_empty]

/-- Environment in which resolution succeeds with a static credential. -/
def env_ok : Env :=
  Env.mk (Except.ok (some (Credentials.plain (FrozenCredentials.mk "AKIA" "xyz" none))))
    (fun _ => Except.ok (FrozenCredentials.mk "AKIA" "xyz" none))

/-- C5 witness: a concrete successful run exits 0. -/
theorem C5_exit_behaviour_witness :
    exit_code (run_script env_ok) = 0 :=
  (C5_exit_behaviour env_ok).1.mpr (by decide)

/-- The UTC instant 2024-01-01T00:00:00Z as botocore stores it in
`_expiry_time`: an aware datetime with a zero UTC offset. -/
def expiry_2024_utc : Datetime :=
  Datetime.mk 2024 1 1 0 0 0 0 (some 0)

/-- An example frozen session credential. -/
def frozen_example : FrozenCredentials :=
  FrozenCredentials.mk "AKIAEXAMPLE" "xyz" (some "session-token")

/-- C6 counterexample: for a time-limited credential expiring at
2024-01-01T00:00:00 UTC, the emitted `Expiration` value is NOT the
`Z`-suffixed string, because `datetime.isoformat()` renders the UTC
offset as `+00:00` and never as `Z`. -/
theorem C6_counterexample_no_z_suffix :
    lookupKey "Expiration"
        (output_data (Credentials.refreshable frozen_example expiry_2024_utc)
          frozen_example) ≠
      some (JsonValue.str "2024-01-01T00:00:00Z") := by
  decide

/-- C6 amended: for a time-limited credential expiring at the UTC instant
2024-01-01T00:00:00+00:00, the emitted JSON includes the pair
`Expiration: 2024-01-01T00:00:00+00:00`, the `isoformat()` rendering of
that instant. -/
theorem C6_amended_expiration_isoformat :
    lookupKey "Expiration"
        (output_data (Credentials.refreshable frozen_example expiry_2024_utc)
          frozen_example) =
      some (JsonValue.str "2024-01-01T00:00:00+00:00") := by
  decide

/-- C7: a `KeyboardInterrupt` raised during resolution or freezing makes
the process exit non-zero immediately via `sys.exit(e)`, with no JSON on
standard output and no external call made more than once (no retry). -/
theorem C7_keyboard_interrupt (env : Env) (m : String)
    (hr : env.get_credentials = Except.error (PyExc.keyboardInterrupt m) ∨
      ∃ c, env.get_credentials = Except.ok (some c) ∧
        env.get_frozen_credentials c = Except.error (PyExc.keyboardInterrupt m)) :
    run_script env = ProcResult.exited m ∧
    exit_code (run_script env) ≠ 0 ∧
    stdout_of (run_script env) = "" ∧
    ∀ ev : CallEvent, List.count ev (run_script_trace env).2 ≤ 1 := by
  rcases hr with h | ⟨c, h1, h2⟩
  · simp [run_script, h, PyExc.handled, PyExc.msg, exit_code, stdout_of]
    exact trace_count_le_one env
  · simp [run_script, h1, h2, PyExc.handled, PyExc.msg, exit_code, stdout_of]
    exact trace_count_le_one env

/-- Environment in which the user interrupts resolution. -/
def env_interrupt : Env :=
  Env.mk (Except.error (PyExc.keyboardInterrupt ""))
    (fun _ => Except.ok (FrozenCredentials.mk "" "" none))

/-- C7 witness: a concrete interrupted run. -/
theorem C7_keyboard_interrupt_witness :
    run_script env_interrupt = ProcResult.exited "" ∧
    exit_code (run_script env_interrupt) ≠ 0 ∧
    stdout_of (run_script env_interrupt) = "" ∧
    ∀ ev : CallEvent, List.count ev (run_script_trace env_interrupt).2 ≤ 1 :=
  C7_keyboard_interrupt env_interrupt "" (Or.inl rfl)

/-- C8: freezing a non-expired refreshable credential returns the wrapped
credentials unchanged (a no-op on the wrapper state), so two freezes in
immediate succession return identical frozen credentials. -/
theorem C8_freeze_idempotent (resolve : Unit → FrozenCredentials × Nat)
    (now : Nat) (w : RefreshableWrapper) (h : now < w.expiry) :
    freeze resolve now w = (w.frozen, w) ∧
    freeze resolve now (freeze resolve now w).2 = freeze resolve now w := by
  have hnot : ¬ w.expiry ≤ now := Nat.not_le.mpr h
  constructor
  · simp [freeze, hnot]
  · simp [freeze, hnot]

/-- C8 witness: a concrete non-expired wrapper, frozen at time 0 with
expiry 5. -/
theorem C8_freeze_idempotent_witness :
    freeze (fun _ => (FrozenCredentials.mk "r" "r" none, 100)) 0
        (RefreshableWrapper.mk (FrozenCredentials.mk "k" "s" (some "t")) 5) =
      (FrozenCredentials.mk "k" "s" (some "t"),
       RefreshableWrapper.mk (FrozenCredentials.mk "k" "s" (some "t")) 5) :=
  (C8_freeze_idempotent (fun _ => (FrozenCredentials.mk "r" "r" none, 100)) 0
    (RefreshableWrapper.mk (FrozenCredentials.mk "k" "s" (some "t")) 5)
    (by decide)).1

/-- C9: in every run, `session.get_credentials` is invoked exactly once
(hence at most once), and no external call is ever repeated, whether the
run succeeds or fails: nothing is retried. -/
theorem C9_no_retry (env : Env) :
    List.count CallEvent.callGetCredentials (run_script_trace env).2 = 1 ∧
    ∀ ev : CallEvent, List.count ev (run_script_trace env).2 ≤ 1 := by
  refine ⟨?_, trace_count_le_one env⟩
  cases h1 : env.get_credentials with
  | error e => simp only [run_script_trace, h1]; decide
  | ok v =>
    cases v with
    | none => simp only [run_script_trace, h1]; decide
    | some c =>
      cases h2 : env.get_frozen_credentials c with
      | error e => simp only [run_script_trace, h1, h2]; decide
      | ok f => simp only [run_script_trace, h1, h2]; decide

/-- C10: exactly the four caught exception types are mapped to a clean
message-and-exit; any exception of another type raised during resolution
or freezing propagates out of the handler unmapped. -/
theorem C10_unhandled_propagates (env : Env) (e : PyExc)
    (hr : env.get_credentials = Except.error e ∨
      ∃ c, env.get_credentials = Except.ok (some c) ∧
        env.get_frozen_credentials c = Except.error e) :
    (e.handled = true → run_script env = ProcResult.exited e.msg) ∧
    (e.handled = false → run_script env = ProcResult.uncaught e) := by
  rcases hr with h | ⟨c, h1, h2⟩
  · constructor <;> intro hh <;> simp [run_script, h, hh]
  · constructor <;> intro hh <;> simp [run_script, h1, h2, hh]

/-- Environment in which freezing raises an exception of an uncaught
type (a transient network failure surfacing at freeze time). -/
def env_raise_other : Env :=
  Env.mk
    (Except.ok (some (Credentials.refreshable frozen_example expiry_2024_utc)))
    (fun _ => Except.error
      (PyExc.otherExc "botocore.exceptions.EndpointConnectionError"
        "Could not connect to the endpoint URL"))

/-- C10 witness: a connection error at freeze time escapes uncaught. -/
theorem C10_unhandled_propagates_witness :
    run_script env_raise_other =
      ProcResult.uncaught
        (PyExc.otherExc "botocore.exceptions.EndpointConnectionError"
          "Could not connect to the endpoint URL") :=
  (C10_unhandled_propagates env_raise_other
    (PyExc.otherExc "botocore.exceptions.EndpointConnectionError"
      "Could not connect to the endpoint URL")
    (Or.inr ⟨Credentials.refreshable frozen_example expiry_2024_utc, rfl, rfl⟩)).2 rfl
